import Mathlib

/-!
Shallow embedding of the KubeSecBank auth-service core
(services/auth-service: handlers, middleware, repository) and proofs of
spec-level properties about it.

Time is modelled as `Int` seconds.  JWTs are modelled symbolically: a
token is its claim set together with the algorithm of its signature
header and the secret that signed it; `jwt.Parse` with an HMAC-only key
function succeeds and yields a valid token iff the algorithm is HMAC,
the signing secret equals the verification secret, and the `exp` claim
lies in the future.  The Redis blacklist is an association list from
tokens to absolute expiry instants (SET with TTL overwrites; EXISTS is
true while `now < expiry`).  The sessions table and the login-attempts
table are lists of rows.
-/

namespace KubeSecBank

/-- Signature algorithm recorded in a token header.  The key functions in
the Go code accept only `jwt.SigningMethodHMAC`. -/
inductive SigAlg where
  | hmac
  | other
deriving Repr, DecidableEq

/-- The claim set written by `issueTokens`: `user_id`, `email`, `type`,
`iat`, `exp`. -/
structure TokenClaims where
  user_id : String
  email : String
  ttype : String
  iat : Int
  exp : Int
deriving Repr, DecidableEq

/-- A signed JWT, modelled symbolically by its claims, its header
algorithm, and the secret used to sign it. -/
structure Token where
  claims : TokenClaims
  alg : SigAlg
  secret : String
deriving Repr, DecidableEq

/-- `jwt.Parse` with a key function that rejects non-HMAC methods and
returns `jwtSecret`, followed by the `token.Valid` check: the algorithm
must be HMAC, the signing secret must match, and the `exp` claim must be
in the future. -/
def jwtParseValid (jwtSecret : String) (now : Int) (tok : Token) : Bool :=
  tok.alg == SigAlg.hmac && tok.secret == jwtSecret && now < tok.claims.exp

/-- models.TokenPair. -/
structure TokenPair where
  accessToken : Token
  refreshToken : Token
deriving Repr, DecidableEq

/-- models.Credentials. -/
structure Credentials where
  email : String
  password : String
deriving Repr, DecidableEq

/-- models.Session (a row of the `sessions` table). -/
structure Session where
  id : String
  userID : String
  token : Token
  expiresAt : Int
  createdAt : Int
deriving Repr, DecidableEq

/-- models.LoginAttempt (a row of the `login_attempts` table). -/
structure LoginAttempt where
  id : String
  email : String
  success : Bool
  ipAddress : String
  createdAt : Int
deriving Repr, DecidableEq

/-- models.Claims, the identity the middleware puts into the request
context. -/
structure Claims where
  userID : String
  email : String
deriving Repr, DecidableEq

/-- models.TokenValidationResponse. -/
structure TokenValidationResponse where
  valid : Bool
  user_id : String
  email : String
deriving Repr, DecidableEq

/-- Auth-service configuration: JWT secret and access-token lifetime
(`JWT_EXPIRY`), in seconds. -/
structure Config where
  jwtSecret : String
  jwtExpiry : Int
deriving Repr, DecidableEq

/-- The mutable state the auth handlers act on: the `sessions` table,
the `login_attempts` table, the Redis token blacklist (token ↦ absolute
expiry instant) and the Redis session cache (token ↦ userID). -/
structure AuthState where
  sessions : List Session
  attempts : List LoginAttempt
  blacklist : List (Token × Int)
  cache : List (Token × String)
deriving Repr, DecidableEq

/-- Repository.BlacklistToken: Redis `SET blacklist:<token> 1 EX ttl`.
A SET overwrites any previous entry for the key; the entry then lives
until `now + ttl`. -/
def BlacklistToken (bl : List (Token × Int)) (tok : Token) (now ttl : Int) :
    List (Token × Int) :=
  (tok, now + ttl) :: bl.filter (fun e => e.1 != tok)

/-- Repository.IsTokenBlacklisted: Redis `EXISTS blacklist:<token>`,
true while some entry for the token has not yet reached its expiry. -/
def IsTokenBlacklisted (bl : List (Token × Int)) (now : Int) (tok : Token) : Bool :=
  bl.any (fun e => e.1 == tok && now < e.2)

/-- The repository call as the handlers see it: `(bool, error)`.  When
the Redis store is down the call returns an error (and `false` as the
zero value, which the model carries in the handler, matching Go). -/
def isTokenBlacklistedCall (redisOk : Bool) (bl : List (Token × Int)) (now : Int)
    (tok : Token) : Except Unit Bool :=
  if redisOk then Except.ok (IsTokenBlacklisted bl now tok) else Except.error ()

/-- ASCII case folding of one character, as `strings.EqualFold` behaves
on ASCII scheme names. -/
def foldChar (c : Char) : Nat :=
  if 65 ≤ c.toNat ∧ c.toNat ≤ 90 then c.toNat + 32 else c.toNat

/-- strings.EqualFold restricted to ASCII strings. -/
def eqFold (a b : String) : Bool :=
  a.data.map foldChar == b.data.map foldChar

/-- The `Authorization` header as `JWTAuth` sees it after
`strings.SplitN(header, " ", 2)`: absent, not of the form
`<scheme> <token>`, or a scheme word followed by a token. -/
inductive AuthHeader where
  | missing
  | malformed
  | withScheme (scheme : String) (tok : Token)
deriving Repr, DecidableEq

/-- Outcome of the gatekeeper middleware: reject the request with an
error message, or pass it on with the parsed identity in the context. -/
inductive GateResult where
  | unauthorized (msg : String)
  | authorized (claims : Claims)
deriving Repr, DecidableEq

/-- middleware.JWTAuth: check the header is present and of the form
`Bearer <token>` (scheme compared case-insensitively), parse and
validate the token with the shared secret, and inject
`Claims(user_id, email)` into the context.  The middleware receives only
the secret; it has no handle on any store. -/
def JWTAuth (jwtSecret : String) (now : Int) (hdr : AuthHeader) : GateResult :=
  match hdr with
  | AuthHeader.missing => GateResult.unauthorized "missing authorization header"
  | AuthHeader.malformed => GateResult.unauthorized "invalid authorization format"
  | AuthHeader.withScheme scheme tok =>
    if !(eqFold scheme "bearer") then
      GateResult.unauthorized "invalid authorization format"
    else if !(jwtParseValid jwtSecret now tok) then
      GateResult.unauthorized "invalid or expired token"
    else
      GateResult.authorized ⟨tok.claims.user_id, tok.claims.email⟩

/-- The gatekeeper decision as a function of the whole service run:
`JWTAuth` is constructed from the configuration alone, so the decision
reads no component of the mutable state. -/
def gatekeeperDecision (cfg : Config) (now : Int) (st : AuthState)
    (hdr : AuthHeader) : GateResult :=
  match st with
  | _ => JWTAuth cfg.jwtSecret now hdr

/-- HTTP responses of the auth handlers, as far as the claims observe
them: an error with a status code and message, a token pair, a token
validation response, or a plain success message. -/
inductive HResp where
  | err (status : Nat) (msg : String)
  | okPair (pair : TokenPair)
  | okValid (v : TokenValidationResponse)
  | okMsg (msg : String)
deriving Repr, DecidableEq

/-- handlers.issueTokens: an access token with
`exp = now + cfg.jwtExpiry` and a refresh token with
`exp = now + 7*24*3600`, both HS256-signed with the configured
secret. -/
def issueTokens (cfg : Config) (userID email : String) (now : Int) : TokenPair :=
  { accessToken :=
      { claims := ⟨userID, email, "access", now, now + cfg.jwtExpiry⟩,
        alg := SigAlg.hmac, secret := cfg.jwtSecret },
    refreshToken :=
      { claims := ⟨userID, email, "refresh", now, now + 604800⟩,
        alg := SigAlg.hmac, secret := cfg.jwtSecret } }

/-- Repository.GetRecentFailedAttempts:
`SELECT COUNT(*) FROM login_attempts WHERE email = $1 AND
success = false AND created_at > $2`. -/
def GetRecentFailedAttempts (attempts : List LoginAttempt) (email : String)
    (since : Int) : Nat :=
  (attempts.filter
    (fun a => a.email == email && a.success == false && since < a.createdAt)).length

/-- Repository.CreateSession: insert a row into `sessions`. -/
def CreateSession (sessions : List Session) (s : Session) : List Session :=
  s :: sessions

/-- Repository.GetSessionByToken:
`SELECT ... FROM sessions WHERE token = $1 AND expires_at > NOW()`;
`none` models the NotFound error row. -/
def GetSessionByToken (sessions : List Session) (now : Int) (tok : Token) :
    Option Session :=
  sessions.find? (fun s => s.token == tok && now < s.expiresAt)

/-- Repository.DeleteSession: `DELETE FROM sessions WHERE token = $1`. -/
def DeleteSession (sessions : List Session) (tok : Token) : List Session :=
  sessions.filter (fun s => s.token != tok)

/-- handlers.Login on a well-formed POST body.  The generated ids and
the client address are passed in as parameters.  The credential check is
the source's stub: any non-empty credentials authenticate, with
`userID = "user-" ++ email`. -/
def Login (cfg : Config) (st : AuthState) (now : Int) (creds : Credentials)
    (ip attemptId sessionId : String) : HResp × AuthState :=
  if creds.email == "" || creds.password == "" then
    (HResp.err 400 "email and password are required", st)
  else
    let failedCount := GetRecentFailedAttempts st.attempts creds.email (now - 900)
    if 5 ≤ failedCount then
      (HResp.err 429 "too many failed login attempts, try again later", st)
    else
      let userID := "user-" ++ creds.email
      let attempt : LoginAttempt := ⟨attemptId, creds.email, true, ip, now⟩
      let pair := issueTokens cfg userID creds.email now
      let session : Session :=
        ⟨sessionId, userID, pair.accessToken, now + cfg.jwtExpiry, now⟩
      (HResp.okPair pair,
        { st with
            attempts := attempt :: st.attempts,
            sessions := CreateSession st.sessions session,
            cache := (pair.accessToken, userID) :: st.cache })

/-- handlers.Logout after the middleware ran: if no claims are in the
context reply 401; otherwise blacklist the presented raw token with TTL
`cfg.jwtExpiry`, delete its session row and invalidate its cache
entry. -/
def Logout (cfg : Config) (st : AuthState) (now : Int) (claims : Option Claims)
    (tok : Token) : HResp × AuthState :=
  match claims with
  | none => (HResp.err 401 "unauthorized", st)
  | some _ =>
    (HResp.okMsg "logged out successfully",
      { st with
          blacklist := BlacklistToken st.blacklist tok now cfg.jwtExpiry,
          sessions := DeleteSession st.sessions tok,
          cache := st.cache.filter (fun e => e.1 != tok) })

/-- The logout route as wired in main: `JWTAuth` wraps
`handlers.Logout`, and the handler re-extracts the raw bearer token from
the same header. -/
def logoutRoute (cfg : Config) (st : AuthState) (now : Int) (hdr : AuthHeader) :
    HResp × AuthState :=
  match JWTAuth cfg.jwtSecret now hdr with
  | GateResult.unauthorized msg => (HResp.err 401 msg, st)
  | GateResult.authorized c =>
    match hdr with
    | AuthHeader.withScheme _ tok => Logout cfg st now (some c) tok
    | _ => (HResp.err 401 "unauthorized", st)

/-- handlers.RefreshToken on a well-formed POST body (`none` models a
missing or empty `refresh_token` field).  Blacklist check first (error
from the store is fatal: 500), then signature/expiry, then the `type`
claim; on success the presented token is blacklisted for a fixed 7 days
and a fresh pair is issued. -/
def RefreshToken (cfg : Config) (redisOk : Bool) (st : AuthState) (now : Int)
    (req : Option Token) : HResp × AuthState :=
  match req with
  | none => (HResp.err 400 "refresh_token is required", st)
  | some tok =>
    match isTokenBlacklistedCall redisOk st.blacklist now tok with
    | Except.error _ => (HResp.err 500 "internal error", st)
    | Except.ok blacklisted =>
      if blacklisted then
        (HResp.err 401 "token has been revoked", st)
      else if !(jwtParseValid cfg.jwtSecret now tok) then
        (HResp.err 401 "invalid or expired refresh token", st)
      else if tok.claims.ttype != "refresh" then
        (HResp.err 401 "not a refresh token", st)
      else
        (HResp.okPair (issueTokens cfg tok.claims.user_id tok.claims.email now),
          { st with blacklist := BlacklistToken st.blacklist tok now 604800 })

/-- handlers.ValidateToken on a well-formed POST body (`none` models a
missing or empty `token` field).  A failing blacklist store is only
logged: the handler continues with the zero value `false` and can answer
`valid = true` for a revoked token. -/
def ValidateToken (cfg : Config) (redisOk : Bool) (st : AuthState) (now : Int)
    (req : Option Token) : HResp × AuthState :=
  match req with
  | none => (HResp.err 400 "token is required", st)
  | some tok =>
    let blacklisted :=
      match isTokenBlacklistedCall redisOk st.blacklist now tok with
      | Except.ok b => b
      | Except.error _ => false
    if blacklisted then
      (HResp.okValid ⟨false, "", ""⟩, st)
    else if !(jwtParseValid cfg.jwtSecret now tok) then
      (HResp.okValid ⟨false, "", ""⟩, st)
    else
      (HResp.okValid ⟨true, tok.claims.user_id, tok.claims.email⟩, st)

/-- middleware.RateLimiter: per-key recorded request timestamps plus the
configured limit and window. -/
structure RateLimiter where
  requests : List (String × List Int)
  limit : Nat
  window : Int
deriving Repr, DecidableEq

/-- Lookup in the per-key map (`rl.requests[ip]`, `[]` when absent). -/
def rlGet (m : List (String × List Int)) (k : String) : List Int :=
  match m.find? (fun e => e.1 == k) with
  | some e => e.2
  | none => []

/-- Store a key's timestamp list (`rl.requests[ip] = v`). -/
def rlSet (m : List (String × List Int)) (k : String) (v : List Int) :
    List (String × List Int) :=
  (k, v) :: m.filter (fun e => e.1 != k)

/-- middleware.NewRateLimiter. -/
def NewRateLimiter (limit : Nat) (window : Int) : RateLimiter :=
  ⟨[], limit, window⟩

/-- One pass of RateLimiter.Middleware for the client key `ip` at `now`:
prune the key's entries to those with `t.After(now - window)`, store the
pruned list, reject when its length has reached the limit, otherwise
append `now` and admit. -/
def RateLimiter.check (rl : RateLimiter) (now : Int) (ip : String) :
    Bool × RateLimiter :=
  let valid := (rlGet rl.requests ip).filter (fun t => now - rl.window < t)
  if rl.limit ≤ valid.length then
    (false, { rl with requests := rlSet rl.requests ip valid })
  else
    (true, { rl with requests := rlSet rl.requests ip (valid ++ [now]) })

/-! Helper lemmas about the association-list stores. -/

theorem find_filter_ne {α β : Type} [DecidableEq α] (m : List (α × β)) (k k2 : α)
    (h : k2 ≠ k) :
    (m.filter (fun e => e.1 != k)).find? (fun e => e.1 == k2)
      = m.find? (fun e => e.1 == k2) := by
  induction m with
  | nil => simp
  | cons e m ih =>
    by_cases he : e.1 = k
    · have h2 : (k == k2) = false := beq_eq_false_iff_ne.mpr (Ne.symm h)
      simp [List.filter_cons, he, List.find?_cons, h2, ih]
    · cases hpe : (e.1 == k2) with
      | true => simp [List.filter_cons, he, List.find?_cons, hpe]
      | false => simp [List.filter_cons, he, List.find?_cons, hpe, ih]

theorem any_filter_eq_false {α β : Type} [DecidableEq α] (m : List (α × β)) (k : α)
    (p : α × β → Bool) :
    (m.filter (fun e => e.1 != k)).any (fun e => e.1 == k && p e) = false := by
  induction m with
  | nil => simp
  | cons e m ih =>
    by_cases he : e.1 = k
    · simp [List.filter_cons, he, ih]
    · simp [List.filter_cons, he, ih]

/-- Claim C1: the AuthGatekeeper middleware (JWTAuth) never consults the
BlacklistRegistry: for every request carrying a Bearer token its
accept/reject decision depends only on the header format, the HMAC
signature and the exp claim, and is the same in any two runs that differ
only in which tokens are blacklisted; in particular a revoked but
unexpired, correctly-signed token is still accepted on protected
routes. -/
theorem C1_gatekeeper_ignores_blacklist :
    (∀ (cfg : Config) (now : Int) (hdr : AuthHeader) (s1 s2 : AuthState),
      gatekeeperDecision cfg now s1 hdr = gatekeeperDecision cfg now s2 hdr)
    ∧ (∀ (cfg : Config) (now : Int) (st : AuthState) (tok : Token),
      tok.alg = SigAlg.hmac → tok.secret = cfg.jwtSecret → now < tok.claims.exp →
      IsTokenBlacklisted st.blacklist now tok = true →
      gatekeeperDecision cfg now st (AuthHeader.withScheme "Bearer" tok)
        = GateResult.authorized ⟨tok.claims.user_id, tok.claims.email⟩) := by
  constructor
  · intro cfg now hdr s1 s2
    rfl
  · intro cfg now st tok halg hsec hexp _
    have hb : eqFold "Bearer" "bearer" = true := by decide
    simp [gatekeeperDecision, JWTAuth, jwtParseValid, halg, hsec, hexp, hb]

/-- Witness for C1 at a concrete revoked, unexpired, correctly-signed
token. -/
theorem C1_witness :
    gatekeeperDecision ⟨"s", 900⟩ 0
      ⟨[], [], [(⟨⟨"u", "e", "access", 0, 900⟩, SigAlg.hmac, "s"⟩, 10)], []⟩
      (AuthHeader.withScheme "Bearer" ⟨⟨"u", "e", "access", 0, 900⟩, SigAlg.hmac, "s"⟩)
      = GateResult.authorized ⟨"u", "e"⟩ :=
  C1_gatekeeper_ignores_blacklist.2 ⟨"s", 900⟩ 0
    ⟨[], [], [(⟨⟨"u", "e", "access", 0, 900⟩, SigAlg.hmac, "s"⟩, 10)], []⟩
    ⟨⟨"u", "e", "access", 0, 900⟩, SigAlg.hmac, "s"⟩
    rfl rfl (by decide) (by decide)

/-- Claim C6: for any access token issued by issueTokens(userID, email),
an immediate call to the validate endpoint with that token returns
valid=true together with the same user_id and email encoded in the
token's claims at issuance. -/
theorem C6_issued_token_validates (cfg : Config) (st : AuthState) (now : Int)
    (userID email : String)
    (hexp : 0 < cfg.jwtExpiry)
    (hnb : IsTokenBlacklisted st.blacklist now
      (issueTokens cfg userID email now).accessToken = false) :
    (ValidateToken cfg true st now
      (some (issueTokens cfg userID email now).accessToken)).1
      = HResp.okValid ⟨true, userID, email⟩ := by
  have hv : jwtParseValid cfg.jwtSecret now
      (issueTokens cfg userID email now).accessToken = true := by
    simp [jwtParseValid, issueTokens]
    omega
  simp only [ValidateToken, isTokenBlacklistedCall, if_true, hnb, hv]
  simp [issueTokens]

/-- Witness for C6 at a concrete configuration and an empty blacklist. -/
theorem C6_witness :
    (ValidateToken ⟨"s", 900⟩ true ⟨[], [], [], []⟩ 0
      (some (issueTokens ⟨"s", 900⟩ "u" "e" 0).accessToken)).1
      = HResp.okValid ⟨true, "u", "e"⟩ :=
  C6_issued_token_validates ⟨"s", 900⟩ ⟨[], [], [], []⟩ 0 "u" "e"
    (by decide) (by decide)

/-- Claim C9: the two revocation-dependent endpoints handle a failing
blacklist store oppositely: when IsTokenBlacklisted errors,
ValidateToken proceeds as though the token were not blacklisted
(fail-open, so a revoked valid token is reported valid=true), while
RefreshToken returns an internal error and does not proceed
(fail-closed). -/
theorem C9_fail_open_vs_fail_closed (cfg : Config) (st : AuthState) (now : Int)
    (tok : Token)
    (halg : tok.alg = SigAlg.hmac) (hsec : tok.secret = cfg.jwtSecret)
    (hexp : now < tok.claims.exp) :
    (ValidateToken cfg false st now (some tok)).1
      = HResp.okValid ⟨true, tok.claims.user_id, tok.claims.email⟩
    ∧ ∀ (req : Token),
      (RefreshToken cfg false st now (some req)).1 = HResp.err 500 "internal error" := by
  constructor
  · simp [ValidateToken, isTokenBlacklistedCall, jwtParseValid, halg, hsec, hexp]
  · intro req
    simp [RefreshToken, isTokenBlacklistedCall]

/-- Witness for C9: a concrete token that is in fact blacklisted is
reported valid while the store is down, and the same down store makes
refresh fail with 500. -/
theorem C9_witness :
    (ValidateToken ⟨"s", 900⟩ false
      ⟨[], [], [(⟨⟨"u", "e", "access", 0, 900⟩, SigAlg.hmac, "s"⟩, 900)], []⟩ 0
      (some ⟨⟨"u", "e", "access", 0, 900⟩, SigAlg.hmac, "s"⟩)).1
      = HResp.okValid ⟨true, "u", "e"⟩
    ∧ (RefreshToken ⟨"s", 900⟩ false
      ⟨[], [], [(⟨⟨"u", "e", "access", 0, 900⟩, SigAlg.hmac, "s"⟩, 900)], []⟩ 0
      (some ⟨⟨"u", "e", "access", 0, 900⟩, SigAlg.hmac, "s"⟩)).1
      = HResp.err 500 "internal error" := by
  have h := C9_fail_open_vs_fail_closed ⟨"s", 900⟩
    ⟨[], [], [(⟨⟨"u", "e", "access", 0, 900⟩, SigAlg.hmac, "s"⟩, 900)], []⟩ 0
    ⟨⟨"u", "e", "access", 0, 900⟩, SigAlg.hmac, "s"⟩ rfl rfl (by decide)
  exact ⟨h.1, h.2 ⟨⟨"u", "e", "access", 0, 900⟩, SigAlg.hmac, "s"⟩⟩

/-- Claim C2: refreshing invalidates the presented refresh token: for a
valid refresh token that is not yet blacklisted, the first refresh call
succeeds with a new pair, and a second call with the same token (while
the 7-day blacklist entry written by the first call is alive) fails with
401 "token has been revoked". -/
theorem C2_refresh_rotates_token (cfg : Config) (st : AuthState) (now now2 : Int)
    (tok : Token)
    (halg : tok.alg = SigAlg.hmac) (hsec : tok.secret = cfg.jwtSecret)
    (hexp : now < tok.claims.exp) (htype : tok.claims.ttype = "refresh")
    (hnb : IsTokenBlacklisted st.blacklist now tok = false)
    (hwin : now2 < now + 604800) :
    (RefreshToken cfg true st now (some tok)).1
      = HResp.okPair (issueTokens cfg tok.claims.user_id tok.claims.email now)
    ∧ (RefreshToken cfg true (RefreshToken cfg true st now (some tok)).2 now2
        (some tok)).1
      = HResp.err 401 "token has been revoked" := by
  have hv : jwtParseValid cfg.jwtSecret now tok = true := by
    simp [jwtParseValid, halg, hsec, hexp]
  have hty : (tok.claims.ttype != "refresh") = false := by simp [htype]
  have hfirst : RefreshToken cfg true st now (some tok)
      = (HResp.okPair (issueTokens cfg tok.claims.user_id tok.claims.email now),
          { st with blacklist := BlacklistToken st.blacklist tok now 604800 }) := by
    simp [RefreshToken, isTokenBlacklistedCall, hnb, hv, hty]
  refine ⟨by rw [hfirst], ?_⟩
  rw [hfirst]
  have hb2 : IsTokenBlacklisted (BlacklistToken st.blacklist tok now 604800) now2 tok
      = true := by
    simp [IsTokenBlacklisted, BlacklistToken, hwin]
  simp [RefreshToken, isTokenBlacklistedCall, hb2]

/-- Witness for C2 with a concrete refresh token and an empty initial
blacklist. -/
theorem C2_witness :
    (RefreshToken ⟨"s", 900⟩ true ⟨[], [], [], []⟩ 0
      (some ⟨⟨"u", "e", "refresh", 0, 604800⟩, SigAlg.hmac, "s"⟩)).1
      = HResp.okPair (issueTokens ⟨"s", 900⟩ "u" "e" 0)
    ∧ (RefreshToken ⟨"s", 900⟩ true
        (RefreshToken ⟨"s", 900⟩ true ⟨[], [], [], []⟩ 0
          (some ⟨⟨"u", "e", "refresh", 0, 604800⟩, SigAlg.hmac, "s"⟩)).2 1
        (some ⟨⟨"u", "e", "refresh", 0, 604800⟩, SigAlg.hmac, "s"⟩)).1
      = HResp.err 401 "token has been revoked" :=
  C2_refresh_rotates_token ⟨"s", 900⟩ ⟨[], [], [], []⟩ 0 1
    ⟨⟨"u", "e", "refresh", 0, 604800⟩, SigAlg.hmac, "s"⟩
    rfl rfl (by decide) rfl (by decide) (by decide)

/-- Counterexample to claim C3: Logout blacklists the presented token
with TTL `cfg.jwtExpiry` regardless of the token's own exp claim.  With
`jwtExpiry = 900` and a token whose remaining lifetime at `now = 0` is
100 seconds, the written blacklist entry lives for 900 seconds: the TTL
is not derived from the token's expiry claim. -/
theorem C3_counterexample :
    (Logout ⟨"s", 900⟩ ⟨[], [], [], []⟩ 0 (some ⟨"u", "e"⟩)
        ⟨⟨"u", "e", "access", -800, 100⟩, SigAlg.hmac, "s"⟩).2.blacklist
      = [(⟨⟨"u", "e", "access", -800, 100⟩, SigAlg.hmac, "s"⟩, 900)]
    ∧ (⟨⟨"u", "e", "access", -800, 100⟩, SigAlg.hmac, "s"⟩ : Token).claims.exp - 0
        ≠ 900 - 0 := by
  constructor
  · rfl
  · decide

/-- Claim C3 as amended: the TTL that Logout and RefreshToken pass to
the blacklist `add` is a fixed configured duration — `cfg.jwtExpiry` in
Logout and 7 days (604800 s) in RefreshToken, the full issuance lifetime
of the corresponding token type — independent of the presented token's
own exp claim, hence not its remaining lifetime. -/
theorem C3_amended_fixed_ttl :
    (∀ (cfg : Config) (st : AuthState) (now : Int) (c : Claims) (tok : Token),
      (Logout cfg st now (some c) tok).2.blacklist
        = BlacklistToken st.blacklist tok now cfg.jwtExpiry)
    ∧ (∀ (cfg : Config) (st : AuthState) (now : Int) (tok : Token),
      IsTokenBlacklisted st.blacklist now tok = false →
      jwtParseValid cfg.jwtSecret now tok = true →
      tok.claims.ttype = "refresh" →
      (RefreshToken cfg true st now (some tok)).2.blacklist
        = BlacklistToken st.blacklist tok now 604800) := by
  constructor
  · intro cfg st now c tok
    rfl
  · intro cfg st now tok hnb hv htype
    have hty : (tok.claims.ttype != "refresh") = false := by simp [htype]
    simp [RefreshToken, isTokenBlacklistedCall, hnb, hv, hty]

/-- Witness for the amended C3 on concrete inputs: both entries carry
the fixed TTLs. -/
theorem C3_amended_witness :
    (Logout ⟨"s", 900⟩ ⟨[], [], [], []⟩ 0 (some ⟨"u", "e"⟩)
        ⟨⟨"u", "e", "access", -800, 100⟩, SigAlg.hmac, "s"⟩).2.blacklist
      = BlacklistToken [] ⟨⟨"u", "e", "access", -800, 100⟩, SigAlg.hmac, "s"⟩ 0 900
    ∧ (RefreshToken ⟨"s", 900⟩ true ⟨[], [], [], []⟩ 0
        (some ⟨⟨"u", "e", "refresh", 0, 50⟩, SigAlg.hmac, "s"⟩)).2.blacklist
      = BlacklistToken [] ⟨⟨"u", "e", "refresh", 0, 50⟩, SigAlg.hmac, "s"⟩ 0 604800 :=
  ⟨C3_amended_fixed_ttl.1 ⟨"s", 900⟩ ⟨[], [], [], []⟩ 0 ⟨"u", "e"⟩
      ⟨⟨"u", "e", "access", -800, 100⟩, SigAlg.hmac, "s"⟩,
    C3_amended_fixed_ttl.2 ⟨"s", 900⟩ ⟨[], [], [], []⟩ 0
      ⟨⟨"u", "e", "refresh", 0, 50⟩, SigAlg.hmac, "s"⟩
      (by decide) (by decide) rfl⟩

/-- Claim C5: if at least 5 failed attempts for the email were recorded
within the trailing 15-minute sliding window, Login rejects with the
lockout error before any credential processing (for every password,
including a correct one) and records nothing; a failure recorded more
than 15 minutes ago does not count toward the threshold. -/
theorem C5_lockout_before_credentials :
    (∀ (cfg : Config) (st : AuthState) (now : Int) (creds : Credentials)
        (ip aid sid : String),
      creds.email ≠ "" → creds.password ≠ "" →
      5 ≤ GetRecentFailedAttempts st.attempts creds.email (now - 900) →
      Login cfg st now creds ip aid sid
        = (HResp.err 429 "too many failed login attempts, try again later", st))
    ∧ (∀ (atts : List LoginAttempt) (email : String) (now : Int)
        (a : LoginAttempt),
      a.createdAt ≤ now - 900 →
      GetRecentFailedAttempts (a :: atts) email (now - 900)
        = GetRecentFailedAttempts atts email (now - 900)) := by
  constructor
  · intro cfg st now creds ip aid sid he hp hcount
    have he2 : (creds.email == "") = false := beq_eq_false_iff_ne.mpr he
    have hp2 : (creds.password == "") = false := beq_eq_false_iff_ne.mpr hp
    simp [Login, he2, hp2, hcount]
  · intro atts email now a ha
    have hd : ¬(now - 900 < a.createdAt) := by omega
    simp [GetRecentFailedAttempts, List.filter_cons, hd]

/-- Witness for C5: five failures for a@b.com one minute ago lock out a
sixth attempt with (stub-)correct credentials, and a failure recorded 16
minutes ago is not counted. -/
theorem C5_witness :
    Login ⟨"s", 900⟩
      ⟨[], [⟨"1", "a@b.com", false, "ip", -60⟩, ⟨"2", "a@b.com", false, "ip", -60⟩,
        ⟨"3", "a@b.com", false, "ip", -60⟩, ⟨"4", "a@b.com", false, "ip", -60⟩,
        ⟨"5", "a@b.com", false, "ip", -60⟩], [], []⟩ 0 ⟨"a@b.com", "x"⟩ "ip" "a" "sess"
      = (HResp.err 429 "too many failed login attempts, try again later",
          ⟨[], [⟨"1", "a@b.com", false, "ip", -60⟩, ⟨"2", "a@b.com", false, "ip", -60⟩,
            ⟨"3", "a@b.com", false, "ip", -60⟩, ⟨"4", "a@b.com", false, "ip", -60⟩,
            ⟨"5", "a@b.com", false, "ip", -60⟩], [], []⟩)
    ∧ GetRecentFailedAttempts [⟨"0", "a@b.com", false, "ip", -960⟩] "a@b.com" (-900)
      = GetRecentFailedAttempts [] "a@b.com" (-900) :=
  ⟨C5_lockout_before_credentials.1 ⟨"s", 900⟩
      ⟨[], [⟨"1", "a@b.com", false, "ip", -60⟩, ⟨"2", "a@b.com", false, "ip", -60⟩,
        ⟨"3", "a@b.com", false, "ip", -60⟩, ⟨"4", "a@b.com", false, "ip", -60⟩,
        ⟨"5", "a@b.com", false, "ip", -60⟩], [], []⟩ 0 ⟨"a@b.com", "x"⟩ "ip" "a" "sess"
      (by decide) (by decide) (by decide),
    C5_lockout_before_credentials.2 [] "a@b.com" 0
      ⟨"0", "a@b.com", false, "ip", -960⟩ (by decide)⟩

theorem rlGet_rlSet_self (m : List (String × List Int)) (k : String) (v : List Int) :
    rlGet (rlSet m k v) k = v := by
  simp [rlGet, rlSet, List.find?_cons]

theorem rlGet_rlSet_ne (m : List (String × List Int)) (k k2 : String) (v : List Int)
    (h : k2 ≠ k) :
    rlGet (rlSet m k v) k2 = rlGet m k2 := by
  have h2 : (k == k2) = false := beq_eq_false_iff_ne.mpr (Ne.symm h)
  simp [rlGet, rlSet, List.find?_cons, h2, find_filter_ne m k k2 h]

/-- Claim C7: the RateLimiter, on each call for a key, prunes that key's
recorded timestamps older than now − window and admits the request iff
the remaining count is strictly below the limit, recording the new
timestamp exactly on admission; with limit 3 and window 1 s, three calls
for one key succeed, a fourth within the same second fails, and a call
after the window has passed succeeds again. -/
theorem C7_rate_limiter :
    (∀ (rl : RateLimiter) (now : Int) (ip : String),
      ((rl.check now ip).1 = true ↔
        ((rlGet rl.requests ip).filter (fun t => now - rl.window < t)).length < rl.limit)
      ∧ (((rlGet rl.requests ip).filter (fun t => now - rl.window < t)).length < rl.limit →
        rlGet (rl.check now ip).2.requests ip
          = (rlGet rl.requests ip).filter (fun t => now - rl.window < t) ++ [now])
      ∧ (rl.limit ≤ ((rlGet rl.requests ip).filter (fun t => now - rl.window < t)).length →
        rlGet (rl.check now ip).2.requests ip
          = (rlGet rl.requests ip).filter (fun t => now - rl.window < t)))
    ∧ (((NewRateLimiter 3 1).check 0 "k").1 = true
      ∧ ((((NewRateLimiter 3 1).check 0 "k").2.check 0 "k").1 = true
      ∧ (((((NewRateLimiter 3 1).check 0 "k").2.check 0 "k").2.check 0 "k").1 = true
      ∧ ((((((NewRateLimiter 3 1).check 0 "k").2.check 0 "k").2.check 0 "k").2.check 0
          "k").1 = false
      ∧ (((((((NewRateLimiter 3 1).check 0 "k").2.check 0 "k").2.check 0 "k").2.check 0
          "k").2.check 2 "k").1 = true))))) := by
  constructor
  · intro rl now ip
    by_cases hc :
        rl.limit ≤ ((rlGet rl.requests ip).filter (fun t => now - rl.window < t)).length
    · refine ⟨?_, ?_, ?_⟩
      · simp [RateLimiter.check, hc]
        try omega
      · intro hlt
        omega
      · intro _
        simp [RateLimiter.check, hc, rlGet_rlSet_self]
    · refine ⟨?_, ?_, ?_⟩
      · simp [RateLimiter.check, hc]
        try omega
      · intro _
        simp [RateLimiter.check, hc, rlGet_rlSet_self]
      · intro hle
        omega
  · exact ⟨by decide, by decide, by decide, by decide, by decide⟩

/-- Witness for C7 applying the general part at a concrete limiter whose
key has one fresh and one stale timestamp. -/
theorem C7_witness :
    ((RateLimiter.mk [("k", [0, -5])] 3 1).check 0 "k").1 = true
    ∧ rlGet ((RateLimiter.mk [("k", [0, -5])] 3 1).check 0 "k").2.requests "k"
      = [0, 0] :=
  ⟨((C7_rate_limiter.1 (RateLimiter.mk [("k", [0, -5])] 3 1) 0 "k").1).mpr (by decide),
    (C7_rate_limiter.1 (RateLimiter.mk [("k", [0, -5])] 3 1) 0 "k").2.1 (by decide)⟩

/-- Counterexample to claim C10: after a completed Middleware check it
is not true that EVERY key's stored list holds only timestamps newer
than now − window: only the checked key is pruned.  After a check for
key "a" at time 0 and one for key "b" at time 10 (window 1), key "a"
still stores the timestamp 0, which is not newer than 10 − 1. -/
theorem C10_counterexample :
    rlGet ((((NewRateLimiter 1 1).check 0 "a").2.check 10 "b").2.requests) "a" = [0]
    ∧ ¬((10 : Int) - (NewRateLimiter 1 1).window < 0) := by
  constructor
  · rfl
  · decide

/-- Claim C10 as amended: the per-key length bound and the append
discipline hold for all keys, but the freshness bound holds only for the
key being checked: every key's list is empty initially and never exceeds
limit entries after a check; after a check for key `ip` at `now`, the
list stored for `ip` holds only timestamps newer than now − window
(given a positive window); an admitted request appends exactly its own
timestamp to the pruned list and a rejected one appends nothing, while
all other keys' lists are left untouched (and so may retain stale
timestamps). -/
theorem C10_rate_limiter_invariant :
    (∀ (limit : Nat) (window : Int) (k : String),
      rlGet (NewRateLimiter limit window).requests k = [])
    ∧ (∀ (rl : RateLimiter) (now : Int) (ip : String),
      (∀ k, (rlGet rl.requests k).length ≤ rl.limit) →
      ∀ k, (rlGet (rl.check now ip).2.requests k).length ≤ rl.limit)
    ∧ (∀ (rl : RateLimiter) (now : Int) (ip : String),
      0 < rl.window →
      ∀ t ∈ rlGet (rl.check now ip).2.requests ip, now - rl.window < t)
    ∧ (∀ (rl : RateLimiter) (now : Int) (ip : String) (k : String),
      k ≠ ip →
      rlGet (rl.check now ip).2.requests k = rlGet rl.requests k)
    ∧ (∀ (rl : RateLimiter) (now : Int) (ip : String),
      ((rl.check now ip).1 = true →
        rlGet (rl.check now ip).2.requests ip
          = (rlGet rl.requests ip).filter (fun t => now - rl.window < t) ++ [now])
      ∧ ((rl.check now ip).1 = false →
        rlGet (rl.check now ip).2.requests ip
          = (rlGet rl.requests ip).filter (fun t => now - rl.window < t))) := by
  refine ⟨?_, ?_, ?_, ?_, ?_⟩
  · intro limit window k
    simp [NewRateLimiter, rlGet]
  · intro rl now ip hinv k
    by_cases hk : k = ip
    · subst hk
      by_cases hc :
          rl.limit ≤ ((rlGet rl.requests k).filter (fun t => now - rl.window < t)).length
      · simp [RateLimiter.check, hc, rlGet_rlSet_self]
        calc ((rlGet rl.requests k).filter (fun t => now - rl.window < t)).length
            ≤ (rlGet rl.requests k).length := List.length_filter_le _ _
          _ ≤ rl.limit := hinv k
      · simp [RateLimiter.check, hc, rlGet_rlSet_self]
        omega
    · by_cases hc :
          rl.limit ≤ ((rlGet rl.requests ip).filter (fun t => now - rl.window < t)).length
      · simp [RateLimiter.check, hc, rlGet_rlSet_ne _ _ _ _ hk]
        exact hinv k
      · simp [RateLimiter.check, hc, rlGet_rlSet_ne _ _ _ _ hk]
        exact hinv k
  · intro rl now ip hw t ht
    by_cases hc :
        rl.limit ≤ ((rlGet rl.requests ip).filter (fun t => now - rl.window < t)).length
    · simp [RateLimiter.check, hc, rlGet_rlSet_self] at ht
      exact ht.2
    · simp [RateLimiter.check, hc, rlGet_rlSet_self] at ht
      rcases ht with ht | ht
      · exact ht.2
      · omega
  · intro rl now ip k hk
    by_cases hc :
        rl.limit ≤ ((rlGet rl.requests ip).filter (fun t => now - rl.window < t)).length
    · simp [RateLimiter.check, hc, rlGet_rlSet_ne _ _ _ _ hk]
    · simp [RateLimiter.check, hc, rlGet_rlSet_ne _ _ _ _ hk]
  · intro rl now ip
    by_cases hc :
        rl.limit ≤ ((rlGet rl.requests ip).filter (fun t => now - rl.window < t)).length
    · constructor
      · intro h
        simp [RateLimiter.check, hc] at h
      · intro _
        simp [RateLimiter.check, hc, rlGet_rlSet_self]
    · constructor
      · intro _
        simp [RateLimiter.check, hc, rlGet_rlSet_self]
      · intro h
        simp [RateLimiter.check, hc] at h

/-- Witness for the amended C10 on concrete limiters: length bound,
checked-key freshness, other-key frame, one appended timestamp on an
admitted check, and no appended timestamp on a rejected one. -/
theorem C10_witness :
    (∀ k, (rlGet ((RateLimiter.mk [("k", [0])] 1 1).check 10 "k").2.requests k).length
      ≤ 1)
    ∧ (∀ t ∈ rlGet ((RateLimiter.mk [("k", [0])] 1 1).check 10 "k").2.requests "k",
      (10 : Int) - 1 < t)
    ∧ rlGet ((RateLimiter.mk [("a", [0])] 1 1).check 10 "b").2.requests "a"
      = rlGet (RateLimiter.mk [("a", [0])] 1 1).requests "a"
    ∧ rlGet ((RateLimiter.mk [("k", [0])] 1 1).check 10 "k").2.requests "k"
      = (rlGet (RateLimiter.mk [("k", [0])] 1 1).requests "k").filter
          (fun t => 10 - 1 < t) ++ [10]
    ∧ rlGet ((RateLimiter.mk [("k", [10])] 1 1).check 10 "k").2.requests "k"
      = (rlGet (RateLimiter.mk [("k", [10])] 1 1).requests "k").filter
          (fun t => 10 - 1 < t) :=
  ⟨C10_rate_limiter_invariant.2.1 (RateLimiter.mk [("k", [0])] 1 1) 10 "k"
      (by
        intro k
        by_cases hk : ("k" : String) = k
        · simp [rlGet, List.find?_cons, hk]
        · have h2 : (("k" : String) == k) = false := beq_eq_false_iff_ne.mpr hk
          simp [rlGet, List.find?_cons, h2]),
    C10_rate_limiter_invariant.2.2.1 (RateLimiter.mk [("k", [0])] 1 1) 10 "k"
      (by decide),
    C10_rate_limiter_invariant.2.2.2.1 (RateLimiter.mk [("a", [0])] 1 1) 10 "b" "a"
      (by decide),
    (C10_rate_limiter_invariant.2.2.2.2 (RateLimiter.mk [("k", [0])] 1 1) 10 "k").1
      (by decide),
    (C10_rate_limiter_invariant.2.2.2.2 (RateLimiter.mk [("k", [10])] 1 1) 10 "k").2
      (by decide)⟩

/-- Claim C8: session round-trip: a session created (as at login) is
retrievable by its token while its expires_at is in the future, and the
lookup is NotFound after deleteSession(token) or once expires_at has
passed (the expiry enforced by the query predicate alone); the login
handler indeed inserts exactly such a session row for the issued access
token. -/
theorem C8_session_round_trip :
    (∀ (sessions : List Session) (s : Session) (now : Int),
      now < s.expiresAt →
      GetSessionByToken (CreateSession sessions s) now s.token = some s)
    ∧ (∀ (sessions : List Session) (now : Int) (tok : Token),
      GetSessionByToken (DeleteSession sessions tok) now tok = none)
    ∧ (∀ (sessions : List Session) (s : Session) (now : Int),
      (∀ s2 ∈ sessions, s2.token ≠ s.token) →
      s.expiresAt ≤ now →
      GetSessionByToken (CreateSession sessions s) now s.token = none)
    ∧ (∀ (cfg : Config) (st : AuthState) (now : Int) (creds : Credentials)
        (ip aid sid : String),
      creds.email ≠ "" → creds.password ≠ "" →
      GetRecentFailedAttempts st.attempts creds.email (now - 900) < 5 →
      (Login cfg st now creds ip aid sid).2.sessions
        = CreateSession st.sessions
            ⟨sid, "user-" ++ creds.email,
              (issueTokens cfg ("user-" ++ creds.email) creds.email now).accessToken,
              now + cfg.jwtExpiry, now⟩) := by
  refine ⟨?_, ?_, ?_, ?_⟩
  · intro sessions s now h
    simp [GetSessionByToken, CreateSession, List.find?_cons, h]
  · intro sessions now tok
    rw [GetSessionByToken, List.find?_eq_none]
    intro s hs
    have hne : s.token ≠ tok := by
      have := List.mem_filter.mp hs
      simpa using this.2
    simp [hne]
  · intro sessions s now hub hexp
    rw [GetSessionByToken, List.find?_eq_none]
    intro z hz
    rcases List.mem_cons.mp hz with hz | hz
    · subst hz
      have : ¬(now < z.expiresAt) := by omega
      simp [this]
    · simp [hub z hz]
  · intro cfg st now creds ip aid sid he hp hcount
    have he2 : (creds.email == "") = false := beq_eq_false_iff_ne.mpr he
    have hp2 : (creds.password == "") = false := beq_eq_false_iff_ne.mpr hp
    have hn : ¬(5 ≤ GetRecentFailedAttempts st.attempts creds.email (now - 900)) := by
      omega
    simp [Login, he2, hp2, hn, CreateSession]

/-- Witness for C8 on a concrete session, with a lookup before expiry, a
lookup after deletion, a lookup after expiry, and a concrete login. -/
theorem C8_witness :
    GetSessionByToken
      (CreateSession [] ⟨"sid", "u", ⟨⟨"u", "e", "access", 0, 900⟩, SigAlg.hmac, "s"⟩,
        900, 0⟩) 10
      (⟨"sid", "u", ⟨⟨"u", "e", "access", 0, 900⟩, SigAlg.hmac, "s"⟩, 900, 0⟩ :
        Session).token
      = some ⟨"sid", "u", ⟨⟨"u", "e", "access", 0, 900⟩, SigAlg.hmac, "s"⟩, 900, 0⟩
    ∧ GetSessionByToken
      (DeleteSession [⟨"sid", "u", ⟨⟨"u", "e", "access", 0, 900⟩, SigAlg.hmac, "s"⟩,
        900, 0⟩] ⟨⟨"u", "e", "access", 0, 900⟩, SigAlg.hmac, "s"⟩) 10
      ⟨⟨"u", "e", "access", 0, 900⟩, SigAlg.hmac, "s"⟩ = none
    ∧ GetSessionByToken
      (CreateSession [] ⟨"sid", "u", ⟨⟨"u", "e", "access", 0, 900⟩, SigAlg.hmac, "s"⟩,
        900, 0⟩) 900
      (⟨"sid", "u", ⟨⟨"u", "e", "access", 0, 900⟩, SigAlg.hmac, "s"⟩, 900, 0⟩ :
        Session).token = none
    ∧ (Login ⟨"s", 900⟩ ⟨[], [], [], []⟩ 0 ⟨"a@b.com", "x"⟩ "ip" "aid" "sid").2.sessions
      = CreateSession []
          ⟨"sid", "user-" ++ "a@b.com",
            (issueTokens ⟨"s", 900⟩ ("user-" ++ "a@b.com") "a@b.com" 0).accessToken,
            0 + 900, 0⟩ :=
  ⟨C8_session_round_trip.1 []
      ⟨"sid", "u", ⟨⟨"u", "e", "access", 0, 900⟩, SigAlg.hmac, "s"⟩, 900, 0⟩ 10
      (by decide),
    C8_session_round_trip.2.1
      [⟨"sid", "u", ⟨⟨"u", "e", "access", 0, 900⟩, SigAlg.hmac, "s"⟩, 900, 0⟩] 10
      ⟨⟨"u", "e", "access", 0, 900⟩, SigAlg.hmac, "s"⟩,
    C8_session_round_trip.2.2.1 []
      ⟨"sid", "u", ⟨⟨"u", "e", "access", 0, 900⟩, SigAlg.hmac, "s"⟩, 900, 0⟩ 900
      (by simp) (by decide),
    C8_session_round_trip.2.2.2 ⟨"s", 900⟩ ⟨[], [], [], []⟩ 0 ⟨"a@b.com", "x"⟩
      "ip" "aid" "sid" (by decide) (by decide) (by decide)⟩

/-- Claim C4: after BlacklistRegistry.add(token, ttl) — as Logout does
for the presented access token — isBlacklisted(token) is true until ttl
elapses (and false once it has), throughout that window the validate
endpoint answers valid=false for the token, and in the end-to-end
scenario a login, a successful validate, and a logout with the access
token make every subsequent validate of that token answer
valid=false. -/
theorem C4_revocation_window :
    (∀ (bl : List (Token × Int)) (tok : Token) (t0 ttl t2 : Int),
      (t2 < t0 + ttl →
        IsTokenBlacklisted (BlacklistToken bl tok t0 ttl) t2 tok = true)
      ∧ (t0 + ttl ≤ t2 →
        IsTokenBlacklisted (BlacklistToken bl tok t0 ttl) t2 tok = false))
    ∧ (∀ (cfg : Config) (st : AuthState) (t2 : Int) (tok : Token),
      IsTokenBlacklisted st.blacklist t2 tok = true →
      (ValidateToken cfg true st t2 (some tok)).1 = HResp.okValid ⟨false, "", ""⟩)
    ∧ (∀ (cfg : Config) (t0 t1 t2 t3 : Int) (ip aid sid : String),
      0 < cfg.jwtExpiry → t1 < t0 + cfg.jwtExpiry →
      t0 ≤ t2 → t2 < t0 + cfg.jwtExpiry → t2 ≤ t3 →
      (Login cfg ⟨[], [], [], []⟩ t0 ⟨"a@b.com", "x"⟩ ip aid sid).1
        = HResp.okPair (issueTokens cfg "user-a@b.com" "a@b.com" t0)
      ∧ (ValidateToken cfg true
          (Login cfg ⟨[], [], [], []⟩ t0 ⟨"a@b.com", "x"⟩ ip aid sid).2 t1
          (some (issueTokens cfg "user-a@b.com" "a@b.com" t0).accessToken)).1
        = HResp.okValid ⟨true, "user-a@b.com", "a@b.com"⟩
      ∧ (logoutRoute cfg
          (Login cfg ⟨[], [], [], []⟩ t0 ⟨"a@b.com", "x"⟩ ip aid sid).2 t2
          (AuthHeader.withScheme "Bearer"
            (issueTokens cfg "user-a@b.com" "a@b.com" t0).accessToken)).1
        = HResp.okMsg "logged out successfully"
      ∧ (ValidateToken cfg true
          (logoutRoute cfg
            (Login cfg ⟨[], [], [], []⟩ t0 ⟨"a@b.com", "x"⟩ ip aid sid).2 t2
            (AuthHeader.withScheme "Bearer"
              (issueTokens cfg "user-a@b.com" "a@b.com" t0).accessToken)).2 t3
          (some (issueTokens cfg "user-a@b.com" "a@b.com" t0).accessToken)).1
        = HResp.okValid ⟨false, "", ""⟩) := by
  refine ⟨?_, ?_, ?_⟩
  · intro bl tok t0 ttl t2
    constructor
    · intro h
      simp [IsTokenBlacklisted, BlacklistToken, h]
    · intro h
      have hh : ¬(t2 < t0 + ttl) := by omega
      simp [IsTokenBlacklisted, BlacklistToken, hh]
      intro a b _ hne heq
      exact absurd heq hne
  · intro cfg st t2 tok h
    simp [ValidateToken, isTokenBlacklistedCall, h]
  · intro cfg t0 t1 t2 t3 ip aid sid hj h1e h02 h2e h23
    have hstr : "user-" ++ "a@b.com" = "user-a@b.com" := rfl
    have he2 : (("a@b.com" : String) == "") = false := by decide
    have hp2 : (("x" : String) == "") = false := by decide
    have hn : ¬(5 ≤ GetRecentFailedAttempts [] "a@b.com" (t0 - 900)) := by
      simp [GetRecentFailedAttempts]
    have hlogin : Login cfg ⟨[], [], [], []⟩ t0 ⟨"a@b.com", "x"⟩ ip aid sid
        = (HResp.okPair (issueTokens cfg "user-a@b.com" "a@b.com" t0),
            ⟨[⟨sid, "user-a@b.com",
                (issueTokens cfg "user-a@b.com" "a@b.com" t0).accessToken,
                t0 + cfg.jwtExpiry, t0⟩],
              [⟨aid, "a@b.com", true, ip, t0⟩], [],
              [((issueTokens cfg "user-a@b.com" "a@b.com" t0).accessToken,
                "user-a@b.com")]⟩) := by
      simp [Login, he2, hp2, hn, CreateSession, hstr]
    have hv1 : jwtParseValid cfg.jwtSecret t1
        (issueTokens cfg "user-a@b.com" "a@b.com" t0).accessToken = true := by
      simp [jwtParseValid, issueTokens, h1e]
    have hv2 : jwtParseValid cfg.jwtSecret t2
        (issueTokens cfg "user-a@b.com" "a@b.com" t0).accessToken = true := by
      simp [jwtParseValid, issueTokens, h2e]
    have hnb1 : IsTokenBlacklisted
        (Login cfg ⟨[], [], [], []⟩ t0 ⟨"a@b.com", "x"⟩ ip aid sid).2.blacklist t1
        (issueTokens cfg "user-a@b.com" "a@b.com" t0).accessToken = false := by
      rw [hlogin]
      simp [IsTokenBlacklisted]
    have hb : eqFold "Bearer" "bearer" = true := by decide
    have hgate : JWTAuth cfg.jwtSecret t2
        (AuthHeader.withScheme "Bearer"
          (issueTokens cfg "user-a@b.com" "a@b.com" t0).accessToken)
        = GateResult.authorized ⟨"user-a@b.com", "a@b.com"⟩ := by
      simp only [JWTAuth, hb, hv2, Bool.not_true, Bool.false_eq_true, if_false]
      simp [issueTokens]
    refine ⟨by rw [hlogin], ?_, ?_, ?_⟩
    · simp only [ValidateToken, isTokenBlacklistedCall, if_true, hnb1, hv1]
      simp [issueTokens]
    · simp [logoutRoute, hgate, Logout]
    · have hlo : (logoutRoute cfg
          (Login cfg ⟨[], [], [], []⟩ t0 ⟨"a@b.com", "x"⟩ ip aid sid).2 t2
          (AuthHeader.withScheme "Bearer"
            (issueTokens cfg "user-a@b.com" "a@b.com" t0).accessToken)).2.blacklist
          = BlacklistToken
              (Login cfg ⟨[], [], [], []⟩ t0 ⟨"a@b.com", "x"⟩ ip aid sid).2.blacklist
              (issueTokens cfg "user-a@b.com" "a@b.com" t0).accessToken t2
              cfg.jwtExpiry := by
        simp [logoutRoute, hgate, Logout]
      by_cases hcase : t3 < t2 + cfg.jwtExpiry
      · have hbl : IsTokenBlacklisted
            (logoutRoute cfg
              (Login cfg ⟨[], [], [], []⟩ t0 ⟨"a@b.com", "x"⟩ ip aid sid).2 t2
              (AuthHeader.withScheme "Bearer"
                (issueTokens cfg "user-a@b.com" "a@b.com" t0).accessToken)).2.blacklist
            t3 (issueTokens cfg "user-a@b.com" "a@b.com" t0).accessToken = true := by
          rw [hlo]
          simp [IsTokenBlacklisted, BlacklistToken, hcase]
        simp [ValidateToken, isTokenBlacklistedCall, hbl]
      · have hbl : IsTokenBlacklisted
            (logoutRoute cfg
              (Login cfg ⟨[], [], [], []⟩ t0 ⟨"a@b.com", "x"⟩ ip aid sid).2 t2
              (AuthHeader.withScheme "Bearer"
                (issueTokens cfg "user-a@b.com" "a@b.com" t0).accessToken)).2.blacklist
            t3 (issueTokens cfg "user-a@b.com" "a@b.com" t0).accessToken = false := by
          rw [hlo, hlogin]
          simp [IsTokenBlacklisted, BlacklistToken]
          omega
        have hv3 : jwtParseValid cfg.jwtSecret t3
            (issueTokens cfg "user-a@b.com" "a@b.com" t0).accessToken = false := by
          simp [jwtParseValid, issueTokens]
          omega
        simp [ValidateToken, isTokenBlacklistedCall, hbl, hv3]

/-- Witness for C4 with a concrete configuration: login at 0, validate
at 10, logout at 20, validate again at 25. -/
theorem C4_witness :
    (Login ⟨"s", 900⟩ ⟨[], [], [], []⟩ 0 ⟨"a@b.com", "x"⟩ "ip" "aid" "sid").1
      = HResp.okPair (issueTokens ⟨"s", 900⟩ "user-a@b.com" "a@b.com" 0)
    ∧ (ValidateToken ⟨"s", 900⟩ true
        (Login ⟨"s", 900⟩ ⟨[], [], [], []⟩ 0 ⟨"a@b.com", "x"⟩ "ip" "aid" "sid").2 10
        (some (issueTokens ⟨"s", 900⟩ "user-a@b.com" "a@b.com" 0).accessToken)).1
      = HResp.okValid ⟨true, "user-a@b.com", "a@b.com"⟩
    ∧ (logoutRoute ⟨"s", 900⟩
        (Login ⟨"s", 900⟩ ⟨[], [], [], []⟩ 0 ⟨"a@b.com", "x"⟩ "ip" "aid" "sid").2 20
        (AuthHeader.withScheme "Bearer"
          (issueTokens ⟨"s", 900⟩ "user-a@b.com" "a@b.com" 0).accessToken)).1
      = HResp.okMsg "logged out successfully"
    ∧ (ValidateToken ⟨"s", 900⟩ true
        (logoutRoute ⟨"s", 900⟩
          (Login ⟨"s", 900⟩ ⟨[], [], [], []⟩ 0 ⟨"a@b.com", "x"⟩ "ip" "aid" "sid").2 20
          (AuthHeader.withScheme "Bearer"
            (issueTokens ⟨"s", 900⟩ "user-a@b.com" "a@b.com" 0).accessToken)).2 25
        (some (issueTokens ⟨"s", 900⟩ "user-a@b.com" "a@b.com" 0).accessToken)).1
      = HResp.okValid ⟨false, "", ""⟩ :=
  C4_revocation_window.2.2 ⟨"s", 900⟩ 0 10 20 25 "ip" "aid" "sid"
    (by decide) (by decide) (by decide) (by decide) (by decide)

end KubeSecBank
